import Mathlib

/-!
Verification of the weather-radar repository.

This file gives a shallow embedding of the server-side MRMS resolver and
cache (src/unnamed/part_001), of the client display controller
(src/components/radar-display.tsx) and of the page controller
(src/app/page.tsx), together with theorems settling the frozen claims
about them.

Modelling conventions.
Times are milliseconds since the Unix epoch, as Nat (JavaScript Date
values in this program are far above zero; the few theorems whose
statements depend on subtraction not truncating carry an explicit lower
bound on the current time).  The ECMAScript Date UTC accessors are
modelled by the standard proleptic Gregorian civil-from-days conversion,
and String.localeCompare on the zero-padded fixed-width timestamp strings
is modelled as lexicographic comparison of the character lists.  Network
effects are passed in as parameters: the outcome of the directory-listing
request is an Option over the list of regex captures that the filename
pattern extracts from the returned HTML, and file fetching is a predicate
on URLs, true meaning HTTP 200 with a body that passes the GRIB2 checks
of parseGRIB2Data.
-/

namespace WeatherRadar

/-- CACHE_DURATION from the source: 2 * 60 * 1000 milliseconds. -/
def CACHE_DURATION : Nat := 2 * 60 * 1000

/-- The MRMS directory base URL (baseUrl in getLatestMRMSData). -/
def mrmsBaseUrl : String :=
  "https://mrms.ncep.noaa.gov/data/2D/ReflectivityAtLowestAltitude/"

/-- The fixed secondary-provider tile template returned by the GET handler. -/
def mesonetTileUrl : String :=
  "https://mesonet.agron.iastate.edu/cache/tile.py/1.0.0/nexrad-n0q-900913/{z}/{x}/{y}.png"

/-- The coverage string of the GET handler response. -/
def conusCoverage : String := "Continental United States (CONUS) only"

/-- Lexicographic comparison of character lists, modelling the effect of
String.localeCompare on the fixed-width digit timestamp strings that the
resolver sorts. -/
def charListLt : List Char → List Char → Bool
  | [], [] => false
  | [], _ :: _ => true
  | _ :: _, [] => false
  | a :: as, b :: bs =>
    if a < b then true else if b < a then false else charListLt as bs

/-- Strict lexicographic order on strings. -/
def strLt (a b : String) : Bool := charListLt a.data b.data

/-- The sort comparator of getLatestMRMSData: a may stay before b exactly
when a is not lexicographically below b (descending order). -/
def strGe (a b : String) : Prop := strLt a b = false

instance strGe.decRel : DecidableRel strGe := fun a b =>
  instDecidableEqBool (strLt a b) false

/-- matches.sort 1 followed by taking index 0: the resolver sorts the
captured timestamp strings in descending order and keeps the head. -/
def selectLatest (ms : List String) : Option String :=
  (List.insertionSort strGe ms).head?

/-- Days since 1970-01-01 to (year, month, day) in the proleptic Gregorian
calendar, modelling the ECMAScript Date UTC accessors used by the code. -/
def civilOfDays (days : Nat) : Nat × Nat × Nat :=
  let z := days + 719468
  let era := z / 146097
  let doe := z % 146097
  let yoe := (doe - doe / 1460 + doe / 36524 - doe / 146096) / 365
  let y := yoe + era * 400
  let doy := doe - (365 * yoe + yoe / 4 - yoe / 100)
  let mp := (5 * doy + 2) / 153
  let d := doy - (153 * mp + 2) / 5 + 1
  let m := if mp < 10 then mp + 3 else mp - 9
  (if m ≤ 2 then y + 1 else y, m, d)

/-- getUTCFullYear, getUTCMonth + 1, getUTCDate, getUTCHours,
getUTCMinutes, getUTCSeconds of a time in ms since the epoch. -/
def utcParts (t : Nat) : Nat × Nat × Nat × Nat × Nat × Nat :=
  let c := civilOfDays (t / 86400000)
  let r := t % 86400000
  (c.1, c.2.1, c.2.2, r / 3600000, r % 3600000 / 60000, r % 60000 / 1000)

/-- String(n).padStart 2 with zeros. -/
def pad2 (n : Nat) : String := if n < 10 then "0" ++ toString n else toString n

/-- Three-digit zero padding, for the milliseconds field of toISOString. -/
def pad3 (n : Nat) : String :=
  if n < 10 then "00" ++ toString n
  else if n < 100 then "0" ++ toString n
  else toString n

/-- Date.prototype.toISOString on a time in ms since the epoch. -/
def toISOString (t : Nat) : String :=
  let p := utcParts t
  toString p.1 ++ "-" ++ pad2 p.2.1 ++ "-" ++ pad2 p.2.2.1 ++ "T" ++
    pad2 p.2.2.2.1 ++ ":" ++ pad2 p.2.2.2.2.1 ++ ":" ++ pad2 p.2.2.2.2.2 ++
    "." ++ pad3 (t % 1000) ++ "Z"

/-- The timestamp string built by the fallback loop:
yyyymmdd-hhmm00 from the UTC parts of the (already rounded) time. -/
def fileTimestamp (t : Nat) : String :=
  let p := utcParts t
  toString p.1 ++ pad2 p.2.1 ++ pad2 p.2.2.1 ++ "-" ++ pad2 p.2.2.2.1 ++
    pad2 p.2.2.2.2.1 ++ "00"

/-- The rounding done on each fallback candidate: setUTCMinutes to
2 * (getUTCMinutes / 2), then setUTCSeconds 0 and setUTCMilliseconds 0. -/
def roundToEvenMinute (t : Nat) : Nat :=
  t - t % 3600000 + t % 3600000 / 60000 / 2 * 2 * 60000

/-- The filename the resolver expects for a given timestamp string. -/
def mrmsFileName (ts : String) : String :=
  "MRMS_ReflectivityAtLowestAltitude_00.50_" ++ ts ++ ".grib2.gz"

/-- baseUrl concatenated with the expected filename. -/
def mrmsFileUrl (ts : String) : String := mrmsBaseUrl ++ mrmsFileName ts

/-- The URL probed by the fallback loop for a rounded candidate time. -/
def fallbackUrl (t : Nat) : String := mrmsFileUrl (fileTimestamp t)

/-- The body of the Strategy B for-loop over the remaining minutesBack
values: round the candidate, build the URL, try to fetch it; a failed
fetch continues with the next older candidate. -/
def fallbackGo (fetchOk : String → Bool) (now : Nat) : List Nat → Option Nat
  | [] => none
  | mb :: rest =>
    let t := roundToEvenMinute (now - mb * 60000)
    if fetchOk (fallbackUrl t) then some t else fallbackGo fetchOk now rest

/-- The minutesBack values of the loop: 0, 2, ..., 60. -/
def minutesBackSteps : List Nat := (List.range 31).map (fun k => 2 * k)

/-- Strategy B: walk backward from now in 2-minute steps up to 60 minutes
and accept the first candidate whose fetch succeeds. -/
def fallbackSearch (fetchOk : String → Bool) (now : Nat) : Option Nat :=
  fallbackGo fetchOk now minutesBackSteps

/-- The rounded candidate timestamps that the fallback probes, most recent
first. -/
def fallbackCandidates (now : Nat) : List Nat :=
  minutesBackSteps.map (fun mb => roundToEvenMinute (now - mb * 60000))

/-- The record returned by getLatestMRMSData: the found flag and the
bounds come from parseGRIB2Data, which returns fixed CONUS constants. -/
structure MRMSData where
  timestamp : String
  fileUrl : String
  found : Bool
  lat_min : Int
  lat_max : Int
  lon_min : Int
  lon_max : Int
deriving DecidableEq

/-- The ISO timestamp Strategy A builds from a captured yyyymmdd-hhmmss
string via new Date followed by toISOString. -/
def isoOfCompact (ts : String) : String :=
  ts.take 4 ++ "-" ++ (ts.drop 4).take 2 ++ "-" ++ (ts.drop 6).take 2 ++ "T" ++
    (ts.drop 9).take 2 ++ ":" ++ (ts.drop 11).take 2 ++ ":" ++
    (ts.drop 13).take 2 ++ ".000Z"

/-- The MRMSData record Strategy A returns for the selected timestamp. -/
def strategyAData (latest : String) : MRMSData :=
  { timestamp := isoOfCompact latest
    fileUrl := mrmsFileUrl latest
    found := true
    lat_min := 20
    lat_max := 50
    lon_min := -130
    lon_max := -60 }

/-- Strategy A (directory listing).  The listing argument is none when the
listing request threw, otherwise the list of timestamp strings captured by
the filename pattern.  Any failure inside the inner try block, including a
failed file fetch or parse, is caught and yields none, after which the
caller falls through to Strategy B. -/
def strategyA (listing : Option (List String)) (fetchOk : String → Bool) :
    Option MRMSData :=
  match listing with
  | none => none
  | some ms =>
    match selectLatest ms with
    | none => none
    | some latest =>
      if fetchOk (mrmsFileUrl latest) then some (strategyAData latest) else none

/-- The MRMSData record the fallback returns for a rounded candidate. -/
def fallbackData (t : Nat) : MRMSData :=
  { timestamp := toISOString t
    fileUrl := fallbackUrl t
    found := true
    lat_min := 20
    lat_max := 50
    lon_min := -130
    lon_max := -60 }

/-- getLatestMRMSData: Strategy A first, then the time-windowed fallback,
then the Unavailable error. -/
def getLatestMRMSData (listing : Option (List String))
    (fetchOk : String → Bool) (now : Nat) : Except String MRMSData :=
  match strategyA listing fetchOk with
  | some d => .ok d
  | none =>
    match fallbackSearch fetchOk now with
    | some t => .ok (fallbackData t)
    | none => .error "Could not find recent MRMS RALA data within last 60 minutes"

/-- cachedData: the spread of an MRMSData record plus lastFetched. -/
structure CacheEntry where
  data : MRMSData
  lastFetched : Nat
deriving DecidableEq

/-- The module-level mutable state of the resolver: the cachedData slot
and the isFetching guard flag. -/
structure ResolverState where
  cachedData : Option CacheEntry
  isFetching : Bool
deriving DecidableEq

/-- The cache entry built on a successful refresh. -/
def mkCacheEntry (d : MRMSData) (now : Nat) : CacheEntry :=
  { data := d, lastFetched := now }

/-- refreshMRMSDataInBackground.  Returns the new state together with the
number of upstream request sequences performed (invocations of
getLatestMRMSData).  If the guard flag is set the call is a no-op;
otherwise the flag is set, one fetch runs, on success the cache slot is
replaced whole, and the finally block clears the flag. -/
def refreshMRMSDataInBackground (listing : Option (List String))
    (fetchOk : String → Bool) (now : Nat) (s : ResolverState) :
    ResolverState × Nat :=
  if s.isFetching then (s, 0)
  else
    match getLatestMRMSData listing fetchOk now with
    | .ok d => ({ cachedData := some (mkCacheEntry d now), isFetching := false }, 1)
    | .error _ => ({ s with isFetching := false }, 1)

/-- The tail of getCachedOrFetchMRMSData once the cache did not serve:
await the refresh, then serve whatever the cache slot now holds, or throw
if it is still empty. -/
def serveAfterRefresh (listing : Option (List String))
    (fetchOk : String → Bool) (now : Nat) (s : ResolverState) :
    Except String CacheEntry × ResolverState × Nat :=
  let r := refreshMRMSDataInBackground listing fetchOk now s
  match r.1.cachedData with
  | some c => (.ok c, r.1, r.2)
  | none => (.error "Failed to fetch MRMS data", r.1, r.2)

/-- getCachedOrFetchMRMSData: serve the cache entry when it is younger
than CACHE_DURATION, otherwise refresh and serve. -/
def getCachedOrFetchMRMSData (listing : Option (List String))
    (fetchOk : String → Bool) (now : Nat) (s : ResolverState) :
    Except String CacheEntry × ResolverState × Nat :=
  match s.cachedData with
  | some c =>
    if now - c.lastFetched < CACHE_DURATION then (.ok c, s, 0)
    else serveAfterRefresh listing fetchOk now s
  | none => serveAfterRefresh listing fetchOk now s

/-- The JSON payload of the GET /api/radar-data handler. -/
structure TileResponse where
  status : Nat
  success : Bool
  timestamp : String
  tile_url : String
  source : String
  coverage : String
  north : Int
  south : Int
  east : Int
  west : Int
deriving DecidableEq

/-- The GET /api/radar-data handler.  The resolver is consulted; on
success its timestamp and the cached source label are used, on failure the
request wall-clock time and the secondary provider label are used.  The
response body is otherwise fixed, and nothing in this path can throw, so
the 500 branch of the source is unreachable. -/
def GET (listing : Option (List String)) (fetchOk : String → Bool)
    (now : Nat) (s : ResolverState) : TileResponse × ResolverState :=
  (match (getCachedOrFetchMRMSData listing fetchOk now s).1 with
   | .ok c =>
     { status := 200
       success := true
       timestamp := c.data.timestamp
       tile_url := mesonetTileUrl
       source := "MRMS_ReflectivityAtLowestAltitude (Cached)"
       coverage := conusCoverage
       north := 50, south := 20, east := -60, west := -130 }
   | .error _ =>
     { status := 200
       success := true
       timestamp := toISOString now
       tile_url := mesonetTileUrl
       source := "Iowa Environmental Mesonet NEXRAD"
       coverage := conusCoverage
       north := 50, south := 20, east := -60, west := -130 },
   (getCachedOrFetchMRMSData listing fetchOk now s).2.1)

/-- Two sequential resolve calls: total number of upstream request
sequences performed across both. -/
def resolveTwiceCount (l1 : Option (List String)) (f1 : String → Bool)
    (n1 : Nat) (l2 : Option (List String)) (f2 : String → Bool) (n2 : Nat)
    (s : ResolverState) : Nat :=
  (getCachedOrFetchMRMSData l1 f1 n1 s).2.2 +
    (getCachedOrFetchMRMSData l2 f2 n2
      (getCachedOrFetchMRMSData l1 f1 n1 s).2.1).2.2

/-- The map-related state of the display controller: whether the map
instance exists, the radarLayer ref, and the overlay layers currently on
the map (by id). -/
structure ViewState where
  hasMap : Bool
  radarLayerRef : Option Nat
  overlaysOnMap : List Nat
  isLoading : Bool
  error : Option String
  lastUpdate : Option String
deriving DecidableEq

/-- The outcome of one /api/radar-data fetch as seen by fetchRadar: fail
covers a network error, a non-ok response and a body with an error field;
ok carries the tile_url (the empty string modelling a missing or empty,
hence falsy, field) and the timestamp. -/
inductive RadarFetchResult where
  | fail (msg : String)
  | ok (tile_url : String) (timestamp : String)
deriving DecidableEq

/-- fetchRadar of the display controller.  On success the previous radar
layer, if any, is removed from the map, and when the map exists and the
tile_url is truthy a new layer is installed and the timestamp reported.
On failure only the loading and error flags change. -/
def fetchRadar (vs : ViewState) (r : RadarFetchResult) (newId : Nat) :
    ViewState :=
  let vs0 := { vs with isLoading := true, error := none }
  match r with
  | .fail msg => { vs0 with error := some msg, isLoading := false }
  | .ok u ts =>
    let vs1 :=
      match vs0.radarLayerRef with
      | some old =>
        if vs0.hasMap then { vs0 with overlaysOnMap := vs0.overlaysOnMap.erase old }
        else vs0
      | none => vs0
    let vs2 :=
      if vs1.hasMap && !(u == "") then
        { vs1 with overlaysOnMap := vs1.overlaysOnMap ++ [newId]
                   radarLayerRef := some newId
                   lastUpdate := some ts }
      else vs1
    { vs2 with isLoading := false }

/-- The resources held by a mounted display controller. -/
structure MountState where
  isMounted : Bool
  intervalActive : Bool
  listenerActive : Bool
  mapPresent : Bool
deriving DecidableEq

/-- The state after initMap ran to completion: the interval timer is
started, the refresh-radar listener is registered and the map exists. -/
def mountedAfterInit : MountState :=
  { isMounted := true, intervalActive := true, listenerActive := true
    mapPresent := true }

/-- The closure that initMap returns on its success path, which would
cancel the interval and remove the listener.  Being the resolution value
of an async function it is never invoked by useEffect. -/
def initMapReturnedCleanup (s : MountState) : MountState :=
  { s with intervalActive := false, listenerActive := false }

/-- The cleanup that useEffect actually runs on unmount: clear the
isMounted flag and, if the map exists, remove and null it.  The closure
returned by the async initMap is discarded, so the interval timer and the
event listener are not touched here. -/
def unmountCleanup (s : MountState) : MountState :=
  let s1 := { s with isMounted := false }
  if s1.mapPresent then { s1 with mapPresent := false } else s1

/-- The state of the page component (src/app/page.tsx). -/
structure PageState where
  lastUpdate : String
  isLoading : Bool
  dataAge : Nat
deriving DecidableEq

/-- The events the page component reacts to: the manual Refresh click,
the ten-second data-age tick, and the timestamp callback from the radar
display. -/
inductive PageEvent where
  | clickRefresh
  | tick (now : Nat)
  | radarUpdate (ts : String)
deriving DecidableEq

/-- One step of the page component.  Date.parse is a runtime primitive and
is passed in as parseMs.  handleRefresh sets isLoading and dispatches the
refresh-radar event; no code path of the page ever clears isLoading. -/
def pageStep (parseMs : String → Nat) (s : PageState) : PageEvent → PageState
  | .clickRefresh => { s with isLoading := true }
  | .tick now =>
    if s.lastUpdate ≠ "" then
      { s with dataAge := (now - parseMs s.lastUpdate) / 1000 }
    else s
  | .radarUpdate ts => { s with lastUpdate := ts }

/-- The disabled attribute of the Refresh button. -/
def refreshDisabled (s : PageState) : Bool := s.isLoading

/-! Helper lemmas about the lexicographic comparison and the sort. -/

theorem charListLt_irrefl (l : List Char) : charListLt l l = false := by
  induction l with
  | nil => rfl
  | cons a as ih =>
    simp only [charListLt]
    rw [if_neg (lt_irrefl a), if_neg (lt_irrefl a)]
    exact ih

theorem charListLt_asymm : ∀ {l1 l2 : List Char},
    charListLt l1 l2 = true → charListLt l2 l1 = false
  | [], [], h => by simp [charListLt] at h
  | [], _ :: _, _ => by simp [charListLt]
  | _ :: _, [], h => by simp [charListLt] at h
  | a :: as, b :: bs, h => by
    simp only [charListLt] at h ⊢
    rcases lt_trichotomy a b with hab | hab | hab
    · rw [if_neg (lt_asymm hab), if_pos hab]
    · subst hab
      rw [if_neg (lt_irrefl a), if_neg (lt_irrefl a)] at h ⊢
      exact charListLt_asymm h
    · rw [if_neg (lt_asymm hab), if_pos hab] at h
      exact Bool.noConfusion h

theorem charListLt_or : ∀ {l1 l2 l3 : List Char}, charListLt l1 l3 = true →
    charListLt l1 l2 = true ∨ charListLt l2 l3 = true
  | [], _, [], h => by simp [charListLt] at h
  | [], [], _ :: _, _ => Or.inr (by simp [charListLt])
  | [], _ :: _, _ :: _, _ => Or.inl (by simp [charListLt])
  | _ :: _, _, [], h => by simp [charListLt] at h
  | _ :: _, [], _ :: _, _ => Or.inr (by simp [charListLt])
  | a :: as, b :: bs, c :: cs, h => by
    simp only [charListLt] at h ⊢
    rcases lt_trichotomy a c with hac | hac | hac
    · rcases lt_trichotomy a b with hab | hab | hab
      · exact Or.inl (by rw [if_pos hab])
      · subst hab
        exact Or.inr (by rw [if_pos hac])
      · exact Or.inr (by rw [if_pos (lt_trans hab hac)])
    · subst hac
      rw [if_neg (lt_irrefl a), if_neg (lt_irrefl a)] at h
      rcases lt_trichotomy a b with hab | hab | hab
      · exact Or.inl (by rw [if_pos hab])
      · subst hab
        rcases @charListLt_or as bs cs h with h1 | h1
        · exact Or.inl (by rw [if_neg (lt_irrefl a), if_neg (lt_irrefl a)]; exact h1)
        · exact Or.inr (by rw [if_neg (lt_irrefl a), if_neg (lt_irrefl a)]; exact h1)
      · exact Or.inr (by rw [if_pos hab])
    · rw [if_neg (lt_asymm hac), if_pos hac] at h
      exact Bool.noConfusion h

instance strGe.total : IsTotal String strGe := by
  constructor
  intro a b
  unfold strGe strLt
  cases h : charListLt a.data b.data
  · exact Or.inl rfl
  · exact Or.inr (charListLt_asymm h)

instance strGe.trans : IsTrans String strGe := by
  constructor
  intro a b c hab hbc
  unfold strGe strLt at *
  cases h : charListLt a.data c.data
  · rfl
  · rcases @charListLt_or a.data b.data c.data h with h1 | h1
    · rw [h1] at hab; exact Bool.noConfusion hab
    · rw [h1] at hbc; exact Bool.noConfusion hbc

/-- The head of the descending sort is a member and no member is
lexicographically greater. -/
theorem selectLatest_spec (ms : List String) (h : ms ≠ []) :
    ∃ m, selectLatest ms = some m ∧ m ∈ ms ∧ ∀ x ∈ ms, strLt m x = false := by
  unfold selectLatest
  cases hs : List.insertionSort strGe ms with
  | nil =>
    exfalso
    have hlen := List.length_insertionSort strGe ms
    rw [hs] at hlen
    simp only [List.length_nil] at hlen
    exact h (List.length_eq_zero.mp hlen.symm)
  | cons m rest =>
    refine ⟨m, rfl, ?_, ?_⟩
    · have hm : m ∈ List.insertionSort strGe ms := by
        rw [hs]; exact List.mem_cons_self m rest
      exact (List.mem_insertionSort strGe).mp hm
    · intro x hx
      have hx2 : x ∈ List.insertionSort strGe ms :=
        (List.mem_insertionSort strGe).mpr hx
      rw [hs] at hx2
      rcases List.mem_cons.mp hx2 with rfl | hx2
      · exact charListLt_irrefl _
      · have hsorted := List.sorted_insertionSort strGe ms
        rw [hs] at hsorted
        exact List.rel_of_sorted_cons hsorted x hx2

/-- The fallback loop is exactly a first-success search over the rounded
candidate list. -/
theorem fallbackGo_eq_find (fetchOk : String → Bool) (now : Nat)
    (l : List Nat) :
    fallbackGo fetchOk now l =
      (l.map (fun mb => roundToEvenMinute (now - mb * 60000))).find?
        (fun t => fetchOk (fallbackUrl t)) := by
  induction l with
  | nil => rfl
  | cons mb rest ih =>
    simp only [fallbackGo, List.map]
    by_cases hf : fetchOk (fallbackUrl (roundToEvenMinute (now - mb * 60000))) = true
    · rw [if_pos hf,
        @List.find?_cons_of_pos _ (fun t => fetchOk (fallbackUrl t)) _ _ hf]
    · rw [if_neg hf,
        @List.find?_cons_of_neg _ (fun t => fetchOk (fallbackUrl t)) _ _ hf, ih]

/-- The source rounding equals flooring to a multiple of two minutes. -/
theorem roundToEvenMinute_eq (t : Nat) : roundToEvenMinute t = t - t % 120000 := by
  unfold roundToEvenMinute
  omega

/-- Each resolve call performs at most one upstream request sequence. -/
theorem getCachedOrFetch_count_le_one (listing : Option (List String))
    (fetchOk : String → Bool) (now : Nat) (s : ResolverState) :
    (getCachedOrFetchMRMSData listing fetchOk now s).2.2 ≤ 1 := by
  unfold getCachedOrFetchMRMSData serveAfterRefresh refreshMRMSDataInBackground
  repeat' split
  all_goals simp_all

/-- A resolve call that arrives while the guard flag is set performs no
upstream request and leaves the state unchanged. -/
theorem getCachedOrFetch_guarded (listing : Option (List String))
    (fetchOk : String → Bool) (now : Nat) (s : ResolverState)
    (h : s.isFetching = true) :
    (getCachedOrFetchMRMSData listing fetchOk now s).2.1 = s ∧
    (getCachedOrFetchMRMSData listing fetchOk now s).2.2 = 0 := by
  unfold getCachedOrFetchMRMSData serveAfterRefresh refreshMRMSDataInBackground
  rw [if_pos h]
  repeat' split
  all_goals simp_all

/-! The claims. -/

/-- Claim C1: if the directory-listing strategy fails, the fallback walks
backward from now in fixed 2-minute steps up to 60 minutes; every
candidate is the enclosing timestamp rounded down to an even UTC minute
with zero seconds; the resolver accepts the first candidate whose fetch
succeeds and fails with the Unavailable error exactly when every candidate
in the window has failed, individual failures being non-fatal. -/
theorem c1_fallback_probing (listing : Option (List String))
    (fetchOk : String → Bool) (now : Nat)
    (hA : strategyA listing fetchOk = none) (hnow : 3600000 ≤ now) :
    fallbackCandidates now
      = (List.range 31).map (fun k => now - now % 120000 - 120000 * k) ∧
    (∀ t ∈ fallbackCandidates now, t % 120000 = 0) ∧
    (∀ t, (fallbackCandidates now).find? (fun t => fetchOk (fallbackUrl t))
        = some t →
      getLatestMRMSData listing fetchOk now = .ok (fallbackData t)) ∧
    ((fallbackCandidates now).find? (fun t => fetchOk (fallbackUrl t)) = none →
      getLatestMRMSData listing fetchOk now =
        .error "Could not find recent MRMS RALA data within last 60 minutes") ∧
    ((fallbackCandidates now).find? (fun t => fetchOk (fallbackUrl t)) = none ↔
      ∀ t ∈ fallbackCandidates now, ¬fetchOk (fallbackUrl t) = true) := by
  have hfs : fallbackSearch fetchOk now
      = (fallbackCandidates now).find? (fun t => fetchOk (fallbackUrl t)) :=
    fallbackGo_eq_find fetchOk now minutesBackSteps
  refine ⟨?_, ?_, ?_, ?_, List.find?_eq_none⟩
  · unfold fallbackCandidates minutesBackSteps
    rw [List.map_map]
    apply List.map_congr_left
    intro k hk
    rw [List.mem_range] at hk
    simp only [Function.comp]
    rw [roundToEvenMinute_eq]
    omega
  · intro t ht
    unfold fallbackCandidates at ht
    rw [List.mem_map] at ht
    obtain ⟨mb, _, rfl⟩ := ht
    rw [roundToEvenMinute_eq]
    omega
  · intro t ht
    rw [← hfs] at ht
    simp [getLatestMRMSData, hA, ht]
  · intro hnone
    rw [← hfs] at hnone
    simp [getLatestMRMSData, hA, hnone]

/-- Witness for C1 at a concrete input: with a failed listing and a fetch
that succeeds immediately, the resolver returns the fallback record for
the newest rounded candidate. -/
theorem c1_fallback_probing_witness :
    strategyA none (fun _ => true) = none ∧
    3600000 ≤ 1700000000000 ∧
    getLatestMRMSData none (fun _ => true) 1700000000000
      = .ok (fallbackData 1699999920000) :=
  ⟨rfl, by decide,
    (c1_fallback_probing none (fun _ => true) 1700000000000 rfl
      (by decide)).2.2.1 1699999920000 (by decide)⟩

/-- Claim C2: when the listing yields one or more matches, the resolver
selects the match whose timestamp string is lexicographically greatest;
in particular on the three listed example timestamps it selects
20240101-001000. -/
theorem c2_select_latest :
    (∀ ms : List String, ms ≠ [] →
      ∃ m, selectLatest ms = some m ∧ m ∈ ms ∧ ∀ x ∈ ms, strLt m x = false) ∧
    selectLatest ["20240101-000000", "20240101-001000", "20240101-000500"]
      = some "20240101-001000" :=
  ⟨selectLatest_spec, by decide⟩

/-- Witness for C2 at the concrete example listing. -/
theorem c2_select_latest_witness :
    (["20240101-000000", "20240101-001000", "20240101-000500"] : List String)
      ≠ [] ∧
    ∃ m, selectLatest
        ["20240101-000000", "20240101-001000", "20240101-000500"] = some m ∧
      m ∈ ["20240101-000000", "20240101-001000", "20240101-000500"] ∧
      ∀ x ∈ ["20240101-000000", "20240101-001000", "20240101-000500"],
        strLt m x = false :=
  ⟨by decide, c2_select_latest.1 _ (by decide)⟩

/-- Claim C3: a cache entry younger than the 2-minute refresh interval is
served as is, with no state change and no upstream request. -/
theorem c3_cache_hit (listing : Option (List String))
    (fetchOk : String → Bool) (now : Nat) (s : ResolverState) (c : CacheEntry)
    (h1 : s.cachedData = some c)
    (h2 : now - c.lastFetched < CACHE_DURATION) :
    getCachedOrFetchMRMSData listing fetchOk now s = (.ok c, s, 0) := by
  simp [getCachedOrFetchMRMSData, h1, h2]

/-- Witness for C3 at a concrete fresh cache entry. -/
theorem c3_cache_hit_witness :
    1700000000001 -
        (mkCacheEntry (fallbackData 1699999920000) 1700000000000).lastFetched
      < CACHE_DURATION ∧
    getCachedOrFetchMRMSData none (fun _ => false) 1700000000001
        ⟨some (mkCacheEntry (fallbackData 1699999920000) 1700000000000), false⟩
      = (.ok (mkCacheEntry (fallbackData 1699999920000) 1700000000000),
          ⟨some (mkCacheEntry (fallbackData 1699999920000) 1700000000000),
            false⟩, 0) :=
  ⟨by decide,
    c3_cache_hit none (fun _ => false) 1700000000001 _ _ rfl (by decide)⟩

/-- Claim C4: a failed refresh leaves the previous cache entry untouched;
a successful unguarded refresh replaces the slot with the complete new
entry stamped with now; in every case the slot afterwards is either the
untouched old value or a complete new entry, never a partial mixture. -/
theorem c4_atomic_refresh (listing : Option (List String))
    (fetchOk : String → Bool) (now : Nat) (s : ResolverState) :
    ((refreshMRMSDataInBackground listing fetchOk now s).1.cachedData
        = s.cachedData ∨
      ∃ d, getLatestMRMSData listing fetchOk now = .ok d ∧
        (refreshMRMSDataInBackground listing fetchOk now s).1.cachedData
          = some (mkCacheEntry d now)) ∧
    (∀ e, getLatestMRMSData listing fetchOk now = .error e →
      (refreshMRMSDataInBackground listing fetchOk now s).1.cachedData
        = s.cachedData) ∧
    (∀ d, getLatestMRMSData listing fetchOk now = .ok d →
      s.isFetching = false →
      (refreshMRMSDataInBackground listing fetchOk now s).1.cachedData
        = some (mkCacheEntry d now)) := by
  unfold refreshMRMSDataInBackground
  by_cases hf : s.isFetching
  · simp [hf]
  · cases hres : getLatestMRMSData listing fetchOk now with
    | ok d => simp [hf, hres]
    | error e => simp [hf, hres]

/-- Witness for C4: a concrete successful Strategy A refresh installs the
complete entry stamped with the refresh time. -/
theorem c4_atomic_refresh_witness :
    getLatestMRMSData (some ["20240615-120000"]) (fun _ => true) 1700000000000
      = .ok (strategyAData "20240615-120000") ∧
    (refreshMRMSDataInBackground (some ["20240615-120000"]) (fun _ => true)
        1700000000000 ⟨none, false⟩).1.cachedData
      = some (mkCacheEntry (strategyAData "20240615-120000") 1700000000000) :=
  ⟨rfl,
    (c4_atomic_refresh (some ["20240615-120000"]) (fun _ => true)
      1700000000000 ⟨none, false⟩).2.2 _ rfl rfl⟩

/-- The secondary tile template is never a primary-dataset file URL: the
two differ at character position 9. -/
theorem mesonet_not_mrms (fname : String) :
    mesonetTileUrl ≠ mrmsBaseUrl ++ fname := by
  intro h
  have hlt : 9 < mrmsBaseUrl.data.length := by decide
  have h9 : mesonetTileUrl.data.get? 9
      = (mrmsBaseUrl.data ++ fname.data).get? 9 :=
    congrArg (fun s : String => s.data.get? 9) h
  rw [List.get?_append hlt] at h9
  have hne : mesonetTileUrl.data.get? 9 ≠ mrmsBaseUrl.data.get? 9 := by decide
  exact hne h9

/-- Claim C5: when the resolver surfaces a failure (both strategies failed
and the cache was empty), the GET handler still answers 200 with success
true, the secondary-provider source label, and the request wall-clock time
as the timestamp; the resolver error never propagates. -/
theorem c5_degraded_success (listing : Option (List String))
    (fetchOk : String → Bool) (now : Nat) (s : ResolverState)
    (hcache : s.cachedData = none)
    (hfail : ∀ d, getLatestMRMSData listing fetchOk now ≠ .ok d) :
    (GET listing fetchOk now s).1.status = 200 ∧
    (GET listing fetchOk now s).1.success = true ∧
    (GET listing fetchOk now s).1.source = "Iowa Environmental Mesonet NEXRAD" ∧
    (GET listing fetchOk now s).1.timestamp = toISOString now := by
  have hserve : (getCachedOrFetchMRMSData listing fetchOk now s).1
      = .error "Failed to fetch MRMS data" := by
    unfold getCachedOrFetchMRMSData serveAfterRefresh refreshMRMSDataInBackground
    by_cases hf : s.isFetching
    · simp [hcache, hf]
    · cases hres : getLatestMRMSData listing fetchOk now with
      | ok d => exact absurd hres (hfail d)
      | error e => simp [hcache, hf, hres]
  unfold GET
  rw [hserve]
  exact ⟨rfl, rfl, rfl, rfl⟩

/-- Witness for C5 at a concrete input: empty cache, failed listing,
every probe fetch failing. -/
theorem c5_degraded_success_witness :
    (⟨none, false⟩ : ResolverState).cachedData = none ∧
    (GET none (fun _ => false) 1700000000000 ⟨none, false⟩).1.status = 200 ∧
    (GET none (fun _ => false) 1700000000000 ⟨none, false⟩).1.success = true ∧
    (GET none (fun _ => false) 1700000000000 ⟨none, false⟩).1.source
      = "Iowa Environmental Mesonet NEXRAD" ∧
    (GET none (fun _ => false) 1700000000000 ⟨none, false⟩).1.timestamp
      = toISOString 1700000000000 :=
  ⟨rfl, c5_degraded_success none (fun _ => false) 1700000000000 ⟨none, false⟩
    rfl (fun d h => by
      rw [show getLatestMRMSData none (fun _ => false) 1700000000000
          = .error "Could not find recent MRMS RALA data within last 60 minutes"
        from rfl] at h
      exact Except.noConfusion h)⟩

/-- Claim C6: whatever the resolution outcome, the GET response carries
the same secondary-provider tile template, the same fixed CONUS bounds and
the same coverage string, reports success, and its tile URL is never a
primary-dataset file URL. -/
theorem c6_constant_payload (listing : Option (List String))
    (fetchOk : String → Bool) (now : Nat) (s : ResolverState) :
    (GET listing fetchOk now s).1.tile_url = mesonetTileUrl ∧
    (GET listing fetchOk now s).1.coverage = conusCoverage ∧
    (GET listing fetchOk now s).1.north = 50 ∧
    (GET listing fetchOk now s).1.south = 20 ∧
    (GET listing fetchOk now s).1.east = -60 ∧
    (GET listing fetchOk now s).1.west = -130 ∧
    (GET listing fetchOk now s).1.success = true ∧
    (GET listing fetchOk now s).1.status = 200 ∧
    (∀ fname, (GET listing fetchOk now s).1.tile_url ≠ mrmsBaseUrl ++ fname) := by
  have hurl : (GET listing fetchOk now s).1.tile_url = mesonetTileUrl := by
    unfold GET
    cases (getCachedOrFetchMRMSData listing fetchOk now s).1 <;> rfl
  refine ⟨hurl, ?_, ?_, ?_, ?_, ?_, ?_, ?_, ?_⟩
  all_goals first
  | (intro fname; rw [hurl]; exact mesonet_not_mrms fname)
  | (unfold GET; cases (getCachedOrFetchMRMSData listing fetchOk now s).1 <;> rfl)

/-- Witness for C6 at a concrete input, including the inequality with a
concrete primary-dataset file URL. -/
theorem c6_constant_payload_witness :
    (GET none (fun _ => false) 1700000000000 ⟨none, false⟩).1.tile_url
      = mesonetTileUrl ∧
    (GET none (fun _ => false) 1700000000000 ⟨none, false⟩).1.tile_url
      ≠ mrmsBaseUrl ++ mrmsFileName "20240101-000000" :=
  ⟨(c6_constant_payload none (fun _ => false) 1700000000000 ⟨none, false⟩).1,
    (c6_constant_payload none (fun _ => false) 1700000000000
      ⟨none, false⟩).2.2.2.2.2.2.2.2 (mrmsFileName "20240101-000000")⟩

/-- Claim C7 counterexample: two resolve calls at the same instant (hence
within one refresh interval), with an empty cache and an upstream that
fails, perform two upstream request sequences, not at most one. -/
theorem c7_twice_counterexample :
    1700000000000 - 1700000000000 < CACHE_DURATION ∧
    resolveTwiceCount none (fun _ => false) 1700000000000
      none (fun _ => false) 1700000000000 ⟨none, false⟩ = 2 ∧
    ¬resolveTwiceCount none (fun _ => false) 1700000000000
      none (fun _ => false) 1700000000000 ⟨none, false⟩ ≤ 1 := by
  refine ⟨by decide, rfl, ?_⟩
  rw [show resolveTwiceCount none (fun _ => false) 1700000000000
      none (fun _ => false) 1700000000000 ⟨none, false⟩ = 2 from rfl]
  decide

/-- Claim C7 amended: two resolve calls within one refresh interval
perform at most one upstream request sequence in total, provided that the
first call refresh outcome, when a refresh is performed, is a success; a
failed first refresh leaves the cache unpopulated, so the second call may
legitimately retry. -/
theorem c7_amended_single_flight (l1 : Option (List String))
    (f1 : String → Bool) (n1 : Nat) (l2 : Option (List String))
    (f2 : String → Bool) (n2 : Nat) (s : ResolverState)
    (hsucc : ∃ d, getLatestMRMSData l1 f1 n1 = .ok d)
    (hwin : n2 - n1 < CACHE_DURATION) :
    resolveTwiceCount l1 f1 n1 l2 f2 n2 s ≤ 1 := by
  obtain ⟨d, hd⟩ := hsucc
  unfold resolveTwiceCount
  cases hc : s.cachedData with
  | some c =>
    by_cases hfresh : n1 - c.lastFetched < CACHE_DURATION
    · have h1 : getCachedOrFetchMRMSData l1 f1 n1 s = (.ok c, s, 0) := by
        simp [getCachedOrFetchMRMSData, hc, hfresh]
      simp only [h1]
      simpa using getCachedOrFetch_count_le_one l2 f2 n2 s
    · by_cases hf : s.isFetching
      · have h1 := getCachedOrFetch_guarded l1 f1 n1 s hf
        rw [h1.1, h1.2]
        have h2 := (getCachedOrFetch_guarded l2 f2 n2 s hf).2
        omega
      · have h1 : getCachedOrFetchMRMSData l1 f1 n1 s
            = (.ok (mkCacheEntry d n1),
                ⟨some (mkCacheEntry d n1), false⟩, 1) := by
          simp [getCachedOrFetchMRMSData, serveAfterRefresh,
            refreshMRMSDataInBackground, hc, hfresh, hf, hd]
        have h2 : getCachedOrFetchMRMSData l2 f2 n2
            ⟨some (mkCacheEntry d n1), false⟩
            = (.ok (mkCacheEntry d n1),
                ⟨some (mkCacheEntry d n1), false⟩, 0) := by
          simp [getCachedOrFetchMRMSData, mkCacheEntry]
          omega
        simp only [h1, h2]
        omega
  | none =>
    by_cases hf : s.isFetching
    · have h1 := getCachedOrFetch_guarded l1 f1 n1 s hf
      rw [h1.1, h1.2]
      have h2 := (getCachedOrFetch_guarded l2 f2 n2 s hf).2
      omega
    · have h1 : getCachedOrFetchMRMSData l1 f1 n1 s
          = (.ok (mkCacheEntry d n1), ⟨some (mkCacheEntry d n1), false⟩, 1) := by
        simp [getCachedOrFetchMRMSData, serveAfterRefresh,
          refreshMRMSDataInBackground, hc, hf, hd]
      have h2 : getCachedOrFetchMRMSData l2 f2 n2
          ⟨some (mkCacheEntry d n1), false⟩
          = (.ok (mkCacheEntry d n1), ⟨some (mkCacheEntry d n1), false⟩, 0) := by
        simp [getCachedOrFetchMRMSData, mkCacheEntry]
        omega
      simp only [h1, h2]
      omega

/-- Witness for the amended C7 at a concrete input: first call refreshes
successfully, second call within the interval is served from cache. -/
theorem c7_amended_single_flight_witness :
    (∃ d, getLatestMRMSData (some ["20240615-120000"]) (fun _ => true)
      1700000000000 = .ok d) ∧
    1700000060000 - 1700000000000 < CACHE_DURATION ∧
    resolveTwiceCount (some ["20240615-120000"]) (fun _ => true) 1700000000000
      none (fun _ => false) 1700000060000 ⟨none, false⟩ ≤ 1 :=
  ⟨⟨strategyAData "20240615-120000", rfl⟩, by decide,
    c7_amended_single_flight (some ["20240615-120000"]) (fun _ => true)
      1700000000000 none (fun _ => false) 1700000060000 ⟨none, false⟩
      ⟨strategyAData "20240615-120000", rfl⟩ (by decide)⟩

/-- Claim C8: under the controller invariant that the only overlay on the
map is the one held by the radarLayer ref, a successful fetch with a
truthy tile URL leaves exactly the new overlay active (the old one is
removed at the swap), while a failed fetch leaves both the overlays on the
map and the ref untouched; the radar-data endpoint always supplies a
non-empty tile URL. -/
theorem c8_overlay_swap (vs : ViewState) (u ts : String) (nid : Nat)
    (msg : String) (hmap : vs.hasMap = true)
    (hinv : vs.overlaysOnMap = vs.radarLayerRef.toList)
    (hu : u ≠ "") :
    (fetchRadar vs (.ok u ts) nid).overlaysOnMap = [nid] ∧
    (fetchRadar vs (.ok u ts) nid).radarLayerRef = some nid ∧
    (∀ vs2 : ViewState,
      (fetchRadar vs2 (.fail msg) nid).overlaysOnMap = vs2.overlaysOnMap ∧
      (fetchRadar vs2 (.fail msg) nid).radarLayerRef = vs2.radarLayerRef) ∧
    (∀ l f n st, (GET l f n st).1.tile_url ≠ "") := by
  have hbu : (u == "") = false := beq_eq_false_iff_ne.mpr hu
  refine ⟨?_, ?_, ?_, ?_⟩
  · cases href : vs.radarLayerRef with
    | none =>
      rw [href] at hinv
      simp [fetchRadar, href, hmap, hbu, hinv]
    | some old =>
      rw [href] at hinv
      simp [fetchRadar, href, hmap, hbu, hinv]
  · cases href : vs.radarLayerRef with
    | none => simp [fetchRadar, href, hmap, hbu]
    | some old => simp [fetchRadar, href, hmap, hbu]
  · intro vs2
    exact ⟨rfl, rfl⟩
  · intro l f n st
    have hurl : (GET l f n st).1.tile_url = mesonetTileUrl := by
      unfold GET
      cases (getCachedOrFetchMRMSData l f n st).1 <;> rfl
    rw [hurl]
    decide

/-- Witness for C8 at a concrete view state with an installed overlay. -/
theorem c8_overlay_swap_witness :
    (⟨true, some 5, [5], false, none, none⟩ : ViewState).hasMap = true ∧
    (⟨true, some 5, [5], false, none, none⟩ : ViewState).overlaysOnMap
      = (⟨true, some 5, [5], false, none, none⟩ :
          ViewState).radarLayerRef.toList ∧
    ("x" : String) ≠ "" ∧
    (fetchRadar ⟨true, some 5, [5], false, none, none⟩
      (.ok "x" "t") 7).overlaysOnMap = [7] ∧
    (fetchRadar ⟨true, some 5, [5], false, none, none⟩
      (.fail "m") 7).overlaysOnMap = [5] :=
  ⟨rfl, rfl, by decide,
    (c8_overlay_swap ⟨true, some 5, [5], false, none, none⟩ "x" "t" 7 "m"
      rfl rfl (by decide)).1,
    ((c8_overlay_swap ⟨true, some 5, [5], false, none, none⟩ "x" "t" 7 "m"
      rfl rfl (by decide)).2.2.1 ⟨true, some 5, [5], false, none, none⟩).1⟩

/-- Claim C9 (code bug): the cleanup that useEffect runs on unmount
releases the map but leaves the interval timer running and the
refresh-radar listener registered, because the closure that would cancel
them is the resolution value of the async initMap and is discarded; the
spec requires all three cleanup actions to happen. -/
theorem c9_unmount_cleanup_bug :
    (unmountCleanup mountedAfterInit).mapPresent = false ∧
    (unmountCleanup mountedAfterInit).intervalActive = true ∧
    (unmountCleanup mountedAfterInit).listenerActive = true ∧
    (initMapReturnedCleanup (unmountCleanup mountedAfterInit)).intervalActive
      = false ∧
    (initMapReturnedCleanup (unmountCleanup mountedAfterInit)).listenerActive
      = false :=
  ⟨rfl, rfl, rfl, rfl, rfl⟩

/-- Claim C10: once the manual Refresh button has been clicked, the
isLoading flag of the page is true and no later event of the page clears
it, so the Refresh button stays disabled for the rest of the view
lifetime. -/
theorem c10_refresh_disabled_forever (parseMs : String → Nat) (s : PageState)
    (evs : List PageEvent) :
    refreshDisabled (evs.foldl (pageStep parseMs)
      (pageStep parseMs s .clickRefresh)) = true := by
  have key : ∀ (evs2 : List PageEvent) (t : PageState), t.isLoading = true →
      (evs2.foldl (pageStep parseMs) t).isLoading = true := by
    intro evs2
    induction evs2 with
    | nil => intro t ht; exact ht
    | cons e rest ih =>
      intro t ht
      rw [List.foldl_cons]
      apply ih
      cases e with
      | clickRefresh => rfl
      | tick n =>
        simp only [pageStep]
        by_cases hlu : t.lastUpdate ≠ ""
        · rw [if_pos hlu]; exact ht
        · rw [if_neg hlu]; exact ht
      | radarUpdate ts2 => exact ht
  exact key evs (pageStep parseMs s .clickRefresh) rfl

end WeatherRadar
